import Mathlib

/-!
# Verification of the Jelly_JAV catalog service

Shallow embedding, in Lean 4, of the core logic of the Jelly_JAV media
catalog application (`app.py`, `config.py`, `javdb_scraper.py`), together
with theorems settling the specification claims about it.

The embedding follows the Python source: pure helpers become Lean
functions, the SQLite tables become lists of rows, the recursive
feed-fetch routine becomes an explicit fuelled loop over a stream of
simulated network responses, and the background-job machinery becomes a
small labelled transition system.  Python floats used for ratings are
modelled by `ℚ`.

The file is organised as definitions first, theorems second.
-/

/-! ## Configuration constants (`config.py`) -/

/-- `JAVBUS_DOMAINS` from `config.py`. -/
def JAVBUS_DOMAINS : List String := ["busjav.cyou", "cdnbus.cyou", "javbus.com"]

/-- `RSS_MAX_RETRIES` from `config.py`. -/
def RSS_MAX_RETRIES : Nat := 3

/-- `RSS_RETRY_BASE_DELAY` from `config.py` (seconds). -/
def RSS_RETRY_BASE_DELAY : Nat := 5

/-! ## Code extraction (`app.py`, `extract_code`)

Python:
```
def extract_code(title):
    match = re.match(r"^([A-Z]+-\d+)", title)
    return match.group(1) if match else None
```
The regex anchors at position 0: one or more ASCII uppercase letters,
a dash, one or more digits, all greedy.  Since `-` is not an uppercase
letter and a digit never needs to be given back, maximal munch is exact
here, so the translation uses `takeWhile` spans. -/

/-! String helpers.  The Python string methods used by the source
(`strip`, `split`, `join`, slicing, `int(...)`) are given structural
char-list implementations, so that every definition in this file can be
evaluated by the kernel on concrete inputs. -/

/-- Decimal value of a digit list (the value `int(s)` gives on a digit
string). -/
def digits_to_nat (cs : List Char) : Nat :=
  cs.foldl (fun n c => n * 10 + (c.toNat - '0'.toNat)) 0

/-- Python `str.strip()`: drop whitespace from both ends. -/
def py_strip (s : String) : String :=
  String.mk
    (((s.toList.dropWhile Char.isWhitespace).reverse.dropWhile
      Char.isWhitespace).reverse)

/-- Split a char list at every occurrence of `sep` (Python
`str.split(sep)` for a one-character separator: `""` splits to `[""]`). -/
def split_on_char (sep : Char) : List Char → List (List Char)
  | [] => [[]]
  | c :: rest =>
    match split_on_char sep rest with
    | [] => [[]]
    | g :: gs => if c == sep then [] :: g :: gs else (c :: g) :: gs

/-- Python `s.split(",")`. -/
def py_split_comma (s : String) : List String :=
  (split_on_char ',' s.toList).map String.mk

/-- Python `",".join(xs)`. -/
def join_comma : List String → String
  | [] => ""
  | x :: rest => rest.foldl (fun acc y => acc ++ "," ++ y) x

/-- `extract_code(title)`: the leading `[A-Z]+-[0-9]+` match of `title`,
or `none` when the title does not start with such a token. -/
def extract_code (title : String) : Option String :=
  let cs := title.toList
  let ups := cs.takeWhile Char.isUpper
  if ups.isEmpty then none
  else
    match cs.drop ups.length with
    | '-' :: rest =>
      let ds := rest.takeWhile Char.isDigit
      if ds.isEmpty then none
      else some (String.mk (ups ++ '-' :: ds))
    | _ => none

/-! ## Ranking loader (`app.py`, `load_csv_codes`)

Python inner loop, per CSV source:
```
for row in reader:
    name = row.get("SUBSTR(name,0,40)", row.get("name", ""))
    number = row.get("number", "")
    if name:
        code = extract_code(name)
        if code:
            if code not in codes[label]:
                codes[label][code] = int(number) if number.isdigit() else 0
            else:
                codes[label][code] = min(codes[label][code], int(number) if number.isdigit() else 0)
```
A CSV row is modelled by its name-like field and its `number` field; the
per-label dictionary is an association list with unique keys. -/

/-- One row of a ranking CSV source: the name-like column and the
`number` (rank) column, both as raw strings. -/
structure CsvRow where
  name : String
  number : String
deriving Repr, DecidableEq

/-- Python `str.isdigit` restricted to ASCII: nonempty and all digits. -/
def str_isdigit (s : String) : Bool :=
  !s.toList.isEmpty && s.toList.all Char.isDigit

/-- `int(number) if number.isdigit() else 0`: the rank parsed from the
`number` field. -/
def parse_rank (number : String) : Nat :=
  if str_isdigit number then digits_to_nat number.toList else 0

/-- Dictionary update used by the ranking loader: first occurrence of a
code stores its rank, later occurrences store the minimum with the
stored rank. -/
def insertRank : List (String × Nat) → String → Nat → List (String × Nat)
  | [], c, r => [(c, r)]
  | (c', r') :: t, c, r =>
    if c' = c then (c', min r' r) :: t else (c', r') :: insertRank t c r

/-- Lookup in the rank dictionary. -/
def lookupRank (m : List (String × Nat)) (c : String) : Option Nat :=
  (m.find? fun p => p.1 = c).map Prod.snd

/-- The loader body folded from an initial dictionary. -/
def load_csv_rows_from (m : List (String × Nat)) (rows : List CsvRow) :
    List (String × Nat) :=
  rows.foldl
    (fun acc row =>
      if row.name ≠ "" then
        match extract_code row.name with
        | some c => insertRank acc c (parse_rank row.number)
        | none => acc
      else acc)
    m

/-- The per-source body of `load_csv_codes`: folds the rows of one CSV
source into a `code → rank` dictionary, starting empty. -/
def load_csv_rows (rows : List CsvRow) : List (String × Nat) :=
  load_csv_rows_from [] rows

/-- The ranks observed for code `c` in a row list: the parsed rank of
every row whose name-like field yields code `c`. -/
def observedRanks (rows : List CsvRow) (c : String) : List Nat :=
  rows.filterMap fun row =>
    if extract_code row.name = some c then some (parse_rank row.number) else none

/-- The minimum of a list of naturals, `none` on the empty list. -/
def minList : List Nat → Option Nat
  | [] => none
  | x :: xs =>
    match minList xs with
    | none => some x
    | some m => some (min x m)

/-- Merge an already-stored rank with the minimum over later rows. -/
def optMin : Option Nat → Option Nat → Option Nat
  | none, b => b
  | some x, none => some x
  | some x, some y => some (min x y)

/-! ## Catalog data model (`movies` and `actors` tables, `init_db`) -/

/-- A row of the `movies` table.  The `score` column (INTEGER DEFAULT 50)
is written non-NULL by every code path that creates a row, so it is
modelled as a plain integer; `javdb_score` (REAL, nullable) is an
optional rational. -/
structure Movie where
  code : String
  title : String
  year : String
  actors : String
  date_added : String
  jellyfin_id : String
  score : Int
  javdb_score : Option ℚ
deriving Repr, DecidableEq

/-- A row of the `actors` table. -/
structure ActorRow where
  id : Nat
  name : String
  javbus_id : Option String
  rss_url : Option String
  is_watched : Bool
  last_updated : Option String
deriving Repr, DecidableEq

/-- A row of the `rss_items` table.  `score` has SQL default 50 and the
feed poller's insert leaves it at the default. -/
structure RssItem where
  actor_id : Nat
  code : String
  title : String
  javbus_url : String
  pub_date : String
  is_watched : Bool
  score : Int
  detected_at : String
deriving Repr, DecidableEq

/-- `SELECT ... FROM movies WHERE code = ?` (the `code` column is
UNIQUE). -/
def movie_find (store : List Movie) (code : String) : Option Movie :=
  store.find? fun m => m.code == code

/-! ## Score engine (`app.py`, `calculate_movie_score`) -/

/-- `[a.strip() for a in actors_str.split(",") if a.strip()]`. -/
def split_actors (s : String) : List String :=
  ((py_split_comma s).map py_strip).filter fun a => a ≠ ""

/-- `[a.strip() for a in row["actors"].split(",")]` (no emptiness
filter), as used when deciding feed-item watched status. -/
def movie_actor_names (actors_str : String) : List String :=
  (py_split_comma actors_str).map py_strip

/-- Truthiness of a nullable TEXT value: non-NULL and non-empty. -/
def hasNonemptyId (o : Option String) : Bool :=
  match o with
  | some s => s ≠ ""
  | none => false

/-- `SELECT javbus_id FROM actors WHERE name = ? AND javbus_id IS NOT
NULL AND javbus_id != ''` returns a row. -/
def actor_has_javbus_id (tab : List ActorRow) (nm : String) : Bool :=
  tab.any fun a => a.name == nm && hasNonemptyId a.javbus_id

/-- The rating actually used by the scorer: the passed rating if
present, otherwise the `javdb_score` stored for the code in `movies`
(the function's database fallback). -/
def resolve_rating (movies : List Movie) (code : String) (r : Option ℚ) :
    Option ℚ :=
  match r with
  | some s => some s
  | none =>
    match movie_find movies code with
    | some row => row.javdb_score
    | none => none

/-- `calculate_movie_score(code, actors_str, javdb_score)`, translated
statement by statement.  The per-label CSV snapshot returned by
`load_csv_codes()` is the argument `csv : String → List (String × Nat)`
(label to rank dictionary); `in` tests on the Python dicts become
`lookupRank · |>.isSome`.  The annual-list loop breaks at the first of
the three labels that contains the code and adds a flat 10. -/
def calculate_movie_score (csv : String → List (String × Nat))
    (movies : List Movie) (actorsTable : List ActorRow)
    (code : String) (actors_str : String) (javdb_score : Option ℚ) : Int :=
  let rating := resolve_rating movies code javdb_score
  let ratingAdj : Int :=
    match rating with
    | none => 0
    | some s =>
      if s ≥ 4.5 then 20
      else if s ≥ 4.2 then 10
      else if s ≥ 3.9 then 0
      else if s ≥ 3.5 then -15
      else -25
  let in_javdb := (lookupRank (csv "JavDB TOP250") code).isSome
  let in_javlib := (lookupRank (csv "JavLibray TOP500") code).isSome
  let listAdj : Int :=
    if in_javdb && in_javlib then 30
    else if in_javdb || in_javlib then 20
    else 0
  let annualAdj : Int :=
    if ["JavDB 2025 TOP250", "JavDB 2024 TOP250", "JavDB 2023 TOP250"].any
        (fun label => (lookupRank (csv label) code).isSome) then 10
    else 0
  let multiAdj : Int :=
    if actors_str ≠ "" then
      if 2 ≤ (split_actors actors_str).length then 5 else 0
    else 0
  let busAdj : Int :=
    if actors_str ≠ "" then
      if (split_actors actors_str).any (actor_has_javbus_id actorsTable) then 15
      else 0
    else 0
  50 + ratingAdj + listAdj + annualAdj + multiAdj + busAdj

/-! ### Claim-side score description

Independent rendering of the specification's wording, for comparison
with `calculate_movie_score`. -/

/-- Spec rating tiers, applied only when a rating is present. -/
def claim_rating_adj (rating : Option ℚ) : Int :=
  match rating with
  | none => 0
  | some s =>
    if s ≥ 4.5 then 20
    else if s ≥ 4.2 then 10
    else if s ≥ 3.9 then 0
    else if s ≥ 3.5 then -15
    else -25

/-- Spec ranking membership: +30 in both the primary and secondary
list, +20 in exactly one of them, else 0. -/
def claim_list_adj (primary secondary : Bool) : Int :=
  if primary = true ∧ secondary = true then 30
  else if (primary = true ∧ secondary = false) ∨
          (primary = false ∧ secondary = true) then 20
  else 0

/-- Spec annual membership: the annual lists checked in the fixed order
2025, 2024, 2023; the first match contributes a flat +10, counted
once. -/
def claim_annual_adj (member : String → Bool) : Int :=
  match ["JavDB 2025 TOP250", "JavDB 2024 TOP250", "JavDB 2023 TOP250"].find?
      member with
  | some _ => 10
  | none => 0

/-- Spec multi-performer bonus: +5 when the performer string names two
or more performers. -/
def claim_multi_adj (performers : List String) : Int :=
  if 2 ≤ performers.length then 5 else 0

/-- Spec feed-linked bonus: +15 when at least one named performer has a
configured external-feed identifier. -/
def claim_feed_adj (tab : List ActorRow) (performers : List String) : Int :=
  if performers.any (actor_has_javbus_id tab) then 15 else 0

/-- The composite score exactly as the claim describes it: 50 plus the
independently evaluated adjustments. -/
def claimed_score (csv : String → List (String × Nat))
    (actorsTable : List ActorRow) (code : String) (actors_str : String)
    (rating : Option ℚ) : Int :=
  50 + claim_rating_adj rating +
    claim_list_adj (lookupRank (csv "JavDB TOP250") code).isSome
      (lookupRank (csv "JavLibray TOP500") code).isSome +
    claim_annual_adj (fun label => (lookupRank (csv label) code).isSome) +
    claim_multi_adj (split_actors actors_str) +
    claim_feed_adj actorsTable (split_actors actors_str)

/-- CSV snapshot for the worked score example: the code sits in the
primary list, the secondary list, and exactly one annual list. -/
def exampleCsv : String → List (String × Nat) := fun label =>
  if label = "JavDB TOP250" ∨ label = "JavLibray TOP500" ∨
      label = "JavDB 2025 TOP250" then [("ABC-123", 1)]
  else []

/-! ## Catalog synchronizer (`app.py`, `sync_jellyfin`)

Per returned item, Python extracts the code from the title, drops the
item when there is none, derives year / added-date / actor string /
media-library id, and runs
```
INSERT OR REPLACE INTO movies (code, title, year, actors, date_added, jellyfin_id, score, javdb_score)
VALUES (?, ?, ?, ?, ?, ?, COALESCE((SELECT score FROM movies WHERE code = ?), 50), (SELECT javdb_score FROM movies WHERE code = ?))
```
so the conflicting row (code is UNIQUE) is replaced, with `score` and
`javdb_score` carried over from the prior row (`score` defaulting to 50
when there is none). -/

/-- One item of the media-library API response: the fields
`sync_jellyfin` reads.  `People` is a list of (name, type) credits. -/
structure JellyfinItem where
  itemName : String
  productionYear : String
  dateCreated : String
  people : List (String × String)
  itemId : String
deriving Repr, DecidableEq

/-- The actor string: names of credits of type "Actor", joined by
commas in the order received. -/
def item_actors (it : JellyfinItem) : String :=
  join_comma ((it.people.filter fun p => p.2 == "Actor").map Prod.fst)

/-- `item.get("DateCreated", "")[:10] if item.get("DateCreated") else ""`. -/
def item_date_added (it : JellyfinItem) : String :=
  if it.dateCreated ≠ "" then String.mk (it.dateCreated.toList.take 10) else ""

/-- The row the upsert writes for `it`, given the prior row for its
code (if any). -/
def sync_row (it : JellyfinItem) (code : String) (prior : Option Movie) : Movie :=
  { code := code
    title := it.itemName
    year := it.productionYear
    actors := item_actors it
    date_added := item_date_added it
    jellyfin_id := it.itemId
    score := (prior.map Movie.score).getD 50
    javdb_score := prior.bind Movie.javdb_score }

/-- The per-item body of `sync_jellyfin`: skip items with no extractable
code, otherwise INSERT OR REPLACE keyed on `code`. -/
def sync_jellyfin_item (store : List Movie) (it : JellyfinItem) : List Movie :=
  match extract_code it.itemName with
  | none => store
  | some code =>
    (store.filter fun m => m.code ≠ code) ++ [sync_row it code (movie_find store code)]

/-- `sync_jellyfin` over the whole item batch (each row its own
upsert). -/
def sync_jellyfin (store : List Movie) (items : List JellyfinItem) : List Movie :=
  items.foldl sync_jellyfin_item store

/-! ## Feed poller, entry processing (`app.py`, `fetch_rss`, 200 branch)

```
existing_codes = set()
for row in SELECT code, actors FROM movies:
    if row["actors"]:
        actors = [a.strip() for a in row["actors"].split(",")]
        if actor["name"] in actors:
            existing_codes.add(row["code"])
for item in root.findall(".//item"):
    ... code = extract_code(title_text)
    if code:
        is_watched = 1 if code in existing_codes else 0
        INSERT OR IGNORE INTO rss_items (...)
        items_added += 1
```
-/

/-- One parsed feed entry (`title`/`link`/`pubDate` text, absent nodes
already mapped to `""` as in the source). -/
structure RssEntry where
  title : String
  link : String
  pubDate : String
deriving Repr, DecidableEq

/-- The codes of movies credited to `actorName` (the poller's
`existing_codes`). -/
def existing_codes (movies : List Movie) (actorName : String) : List String :=
  (movies.filter fun m =>
    m.actors ≠ "" && (movie_actor_names m.actors).contains actorName).map
    Movie.code

/-- `INSERT OR IGNORE INTO rss_items`, with UNIQUE(actor_id, code): a
row whose (actor_id, code) pair is already present is dropped, leaving
the store unchanged. -/
def insert_rss_item (store : List RssItem) (it : RssItem) : List RssItem :=
  if store.any fun x => x.actor_id == it.actor_id && x.code == it.code then store
  else store ++ [it]

/-- One iteration of the entry loop: skip entries without a code,
otherwise insert (ignoring conflicts) and count the entry as added. -/
def process_step (movies : List Movie) (actorId : Nat) (actorName : String)
    (now : String) (acc : List RssItem × Nat) (entry : RssEntry) :
    List RssItem × Nat :=
  match extract_code entry.title with
  | none => acc
  | some code =>
    let watched := (existing_codes movies actorName).contains code
    (insert_rss_item acc.1
      { actor_id := actorId, code := code, title := entry.title,
        javbus_url := entry.link, pub_date := entry.pubDate,
        is_watched := watched, score := 50, detected_at := now },
     acc.2 + 1)

/-- The whole entry loop of the 200 branch: returns the updated
`rss_items` store and the reported `items_added` count. -/
def process_rss_entries (movies : List Movie) (actorId : Nat)
    (actorName : String) (now : String) (entries : List RssEntry)
    (store : List RssItem) : List RssItem × Nat :=
  entries.foldl (process_step movies actorId actorName now) (store, 0)

/-- The store invariant: no two rows share the same (actor, code)
pair. -/
def rss_pair_unique (store : List RssItem) : Prop :=
  store.Pairwise fun x y => ¬(x.actor_id = y.actor_id ∧ x.code = y.code)

/-! ## Feed poller, retry control flow (`app.py`, `fetch_rss`)

`fetch_rss(actor_id, retry_count=0, domain_index=0)` issues one request
per invocation and recurses.  The branch structure:

* status ∈ {429, 503, 502, 504}: with budget, sleep
  `RSS_RETRY_BASE_DELAY * 2 ** retry_count` and recurse as
  `fetch_rss(actor_id, retry_count + 1)` — the `domain_index` argument
  is omitted, so the recursion uses its default value 0; without
  budget, return the max-retries failure.
* other status ≥ 400: `raise_for_status` raises an HTTPError, landing
  in the `RequestException` handler below.
* status < 400: parse the feed, insert items, update the actor's
  `last_updated`, return success with `items_added`.
* `RequestException`: when the message contains "timeout" and
  `domain_index < len(JAVBUS_DOMAINS) - 1`, recurse immediately as
  `fetch_rss(actor_id, 0, domain_index + 1)` (no sleep); otherwise with
  budget, sleep and recurse as
  `fetch_rss(actor_id, retry_count + 1, domain_index)`; without budget,
  return the network failure.
* any other exception: with budget, sleep and recurse as
  `fetch_rss(actor_id, retry_count + 1, domain_index)`; without,
  return the failure.

A simulated network is a stream `Nat → NetResp` of per-request
outcomes. -/

/-- What one `requests.get` call produces, as `fetch_rss` classifies
it: an HTTP response (carrying status, whether the HTTPError text that
`raise_for_status` would produce contains "timeout", and the parsed
feed entries for a success page), a `RequestException` (carrying
whether its text contains "timeout"), or some other exception raised
while handling the response. -/
inductive NetResp where
  | http (status : Nat) (reasonTimeout : Bool) (entries : List RssEntry)
  | reqExc (msgTimeout : Bool)
  | exc
deriving Repr, DecidableEq

/-- The retry configuration: the configured domain list and the retry
limits. -/
structure FetchConfig where
  domains : List String
  maxRetries : Nat
  baseDelay : Nat
deriving Repr, DecidableEq

/-- The configuration from `config.py`. -/
def appConfig : FetchConfig :=
  { domains := JAVBUS_DOMAINS, maxRetries := RSS_MAX_RETRIES,
    baseDelay := RSS_RETRY_BASE_DELAY }

/-- `current_domains[domain_index] if domain_index < len(current_domains)
else current_domains[0]`, with the `["busjav.cyou"]` fallback for an
empty configured list. -/
def current_domain (cfg : FetchConfig) (domain_index : Nat) : String :=
  let ds := if cfg.domains.isEmpty then ["busjav.cyou"] else cfg.domains
  if domain_index < ds.length then ds.getD domain_index "" else ds.getD 0 ""

/-- Membership in the `retryable_errors` dict. -/
def retryable (s : Nat) : Bool :=
  s == 429 || s == 503 || s == 502 || s == 504

/-- The terminal results of `fetch_rss` (the dictionaries it returns). -/
inductive FetchOutcome where
  | ok (items_added : Nat)
  | retryExhausted (status : Nat) (retry_count : Nat)
  | networkFailed
  | failed
  | noActor
deriving Repr, DecidableEq

/-- What one invocation of `fetch_rss` does after its request: finish
with an outcome (and the stores as updated), or recurse with an
optional backoff sleep and new counter values. -/
inductive FetchNext where
  | done (out : FetchOutcome) (rss : List RssItem) (actors : List ActorRow)
  | cont (sleepDelay : Option Nat) (retry_count : Nat) (domain_index : Nat)
deriving Repr, DecidableEq

/-- `UPDATE actors SET last_updated = ? WHERE id = ?`. -/
def update_last_updated (actors : List ActorRow) (actorId : Nat)
    (now : String) : List ActorRow :=
  actors.map fun a =>
    if a.id == actorId then { a with last_updated := some now } else a

/-- The `RequestException` handler of `fetch_rss`. -/
def request_exc_step (cfg : FetchConfig) (msgTimeout : Bool)
    (retry_count domain_index : Nat) (rss : List RssItem)
    (actors : List ActorRow) : FetchNext :=
  if msgTimeout = true ∧ domain_index + 1 < cfg.domains.length then
    .cont none 0 (domain_index + 1)
  else if retry_count < cfg.maxRetries then
    .cont (some (cfg.baseDelay * 2 ^ retry_count)) (retry_count + 1)
      domain_index
  else .done .networkFailed rss actors

/-- One invocation of `fetch_rss` after its `requests.get`, translated
branch by branch (see the section comment).  Note the retryable-status
branch recurses with domain index 0: the source omits the
`domain_index` argument there. -/
def fetch_step (cfg : FetchConfig) (movies : List Movie) (actorId : Nat)
    (actorName : String) (now : String) (resp : NetResp)
    (retry_count domain_index : Nat) (rss : List RssItem)
    (actors : List ActorRow) : FetchNext :=
  match resp with
  | .http s reasonTimeout entries =>
    if retryable s then
      if retry_count < cfg.maxRetries then
        .cont (some (cfg.baseDelay * 2 ^ retry_count)) (retry_count + 1) 0
      else .done (.retryExhausted s retry_count) rss actors
    else if 400 ≤ s then
      request_exc_step cfg reasonTimeout retry_count domain_index rss actors
    else
      let res := process_rss_entries movies actorId actorName now entries rss
      .done (.ok res.2) res.1 (update_last_updated actors actorId now)
  | .reqExc msgTimeout =>
    request_exc_step cfg msgTimeout retry_count domain_index rss actors
  | .exc =>
    if retry_count < cfg.maxRetries then
      .cont (some (cfg.baseDelay * 2 ^ retry_count)) (retry_count + 1)
        domain_index
    else .done .failed rss actors

/-- Events observable from outside: the requests issued (with the
domain index and attempt counter they were issued under) and the
backoff sleeps. -/
inductive FetchEvent where
  | req (domain_index retry_count : Nat)
  | sleep (seconds : Nat)
deriving Repr, DecidableEq

/-- The recursion of `fetch_rss`, as a fuelled loop over the response
stream; returns the event trace and, unless fuel ran out, the outcome
with the final stores.  (Fuel is needed because for adversarial
response streams the source recursion does not terminate: a timeout
resets `retry_count` to 0.) -/
def fetch_loop (cfg : FetchConfig) (movies : List Movie) (actorId : Nat)
    (actorName : String) (now : String) (env : Nat → NetResp) :
    Nat → Nat → Nat → Nat → List RssItem → List ActorRow →
    List FetchEvent × Option (FetchOutcome × List RssItem × List ActorRow)
  | 0, _, _, _, _, _ => ([], none)
  | fuel + 1, i, retry_count, domain_index, rss, actors =>
    match fetch_step cfg movies actorId actorName now (env i) retry_count
        domain_index rss actors with
    | .done out rss' actors' =>
      ([.req domain_index retry_count], some (out, rss', actors'))
    | .cont sleepDelay r' d' =>
      let rest := fetch_loop cfg movies actorId actorName now env fuel
        (i + 1) r' d' rss actors
      (FetchEvent.req domain_index retry_count ::
        ((match sleepDelay with
          | some t => [FetchEvent.sleep t]
          | none => []) ++ rest.1),
       rest.2)

/-- `fetch_rss(actor_id)` from the top: resolve the actor row, fail
fast when it is missing or has no (truthy) `javbus_id`, otherwise run
the request loop from attempt 0, domain index 0. -/
def fetch_rss (cfg : FetchConfig) (movies : List Movie)
    (actors : List ActorRow) (actorId : Nat) (now : String)
    (env : Nat → NetResp) (fuel : Nat) (rss : List RssItem) :
    List FetchEvent × Option (FetchOutcome × List RssItem × List ActorRow) :=
  match actors.find? fun a => a.id == actorId with
  | none => ([], some (.noActor, rss, actors))
  | some a =>
    if hasNonemptyId a.javbus_id then
      fetch_loop cfg movies actorId a.name now env fuel 0 0 0 rss actors
    else ([], some (.noActor, rss, actors))

/-- A response that lands in the retryable-status branch. -/
def is_retryable_resp : NetResp → Prop
  | .http s _ _ => retryable s = true
  | _ => False

/-- The status of an HTTP response, for naming the exhausted-retry
outcome. -/
def resp_status : NetResp → Nat
  | .http s _ _ => s
  | _ => 0

/-! ## Job tracker (`app.py`, `rss_update_state`, `api_rss_refresh`,
`fetch_all_rss_background`)

The handler:
```
if rss_update_state["is_running"]:
    return jsonify({"success": False, "message": "RSS refresh is already running", ...})
rss_thread = threading.Thread(target=fetch_all_rss_background, daemon=True)
rss_thread.start()
return jsonify({"success": True, "message": "RSS refresh started in background"})
```
The background run first sets `is_running = True`, `is_complete =
False`, clears `results`, then appends one result per actor, then sets
`is_running = False`, `is_complete = True`.

The model is a labelled transition system: a handler action processes
one start request atomically; each spawned run is a thread whose
initialisation, per-actor appends and completion are separate steps, so
arbitrary interleavings of handler and thread steps are expressible —
in particular the source behaviour that `is_running` only becomes true
once the spawned thread gets to run. -/

/-- Where a spawned background run currently stands: not yet started,
mid-loop with the remaining per-actor work, or finished. -/
inductive JobPhase where
  | pending (work : List Nat)
  | working (work : List Nat)
  | finished
deriving Repr, DecidableEq

/-- One spawned background run. -/
structure RunThread where
  runId : Nat
  phase : JobPhase
deriving Repr, DecidableEq

/-- The global job state plus the spawned runs.  `results` entries are
tagged with the id of the run that appended them. -/
structure JobSys where
  is_running : Bool
  is_complete : Bool
  results : List (Nat × Nat)
  threads : List RunThread
  nextId : Nat
deriving Repr, DecidableEq

/-- The initial `rss_update_state`. -/
def initJobSys : JobSys :=
  { is_running := false, is_complete := false, results := [],
    threads := [], nextId := 0 }

/-- The handler's reply. -/
inductive Reply where
  | started
  | alreadyRunning
deriving Repr, DecidableEq

/-- `api_rss_refresh`: reject when the running flag is set, otherwise
spawn a background run (which has not executed anything yet) and
acknowledge. -/
def rss_refresh_request (s : JobSys) (work : List Nat) : JobSys × Reply :=
  if s.is_running then (s, .alreadyRunning)
  else
    ({ s with
        threads := s.threads ++ [⟨s.nextId, .pending work⟩]
        nextId := s.nextId + 1 }, .started)

/-- Replace the phase of run `rid`. -/
def set_phase (threads : List RunThread) (rid : Nat) (p : JobPhase) :
    List RunThread :=
  threads.map fun t => if t.runId == rid then { t with phase := p } else t

/-- One scheduler step of run `rid` inside
`fetch_all_rss_background`: initialisation (set the flags, clear the
log), one loop iteration (append this run's next result), or
completion (clear the running flag, set complete). -/
def thread_step (s : JobSys) (rid : Nat) : JobSys :=
  match s.threads.find? fun t => t.runId == rid with
  | none => s
  | some t =>
    match t.phase with
    | .pending work =>
      { s with
          is_running := true
          is_complete := false
          results := []
          threads := set_phase s.threads rid (.working work) }
    | .working [] =>
      { s with
          is_running := false
          is_complete := true
          threads := set_phase s.threads rid .finished }
    | .working (a :: rest) =>
      { s with
          results := s.results ++ [(rid, a)]
          threads := set_phase s.threads rid (.working rest) }
    | .finished => s

/-- A schedule: start requests interleaved with thread steps. -/
inductive JobAct where
  | request (work : List Nat)
  | tstep (rid : Nat)
deriving Repr, DecidableEq

/-- Run a schedule, collecting the handler replies. -/
def job_run : JobSys → List JobAct → JobSys × List Reply
  | s, [] => (s, [])
  | s, .request w :: rest =>
    let step := rss_refresh_request s w
    let res := job_run step.1 rest
    (res.1, step.2 :: res.2)
  | s, .tstep rid :: rest => job_run (thread_step s rid) rest

/-- The number of batch runs that are active (spawned and not yet
finished). -/
def active_runs (s : JobSys) : Nat :=
  s.threads.countP fun t => t.phase != .finished

/-! ## Rating scraper (`javdb_scraper.py`)

`parse_movie_page(html, code)` tries four regex patterns in priority
order and stops at the first match:
1. `data-score="(\d+\.?\d*)"`
2. `<[^>]*class="[^"]*rating[^"]*"[^>]*>(\d+\.?\d*)`
3. `(\d+\.?\d*)\s*/\s*5`
4. `>([\d.]+)\s*分<`
Each is translated as a position-by-position scanner (re.search tries
every start position; inside one position the sub-patterns here admit
no productive backtracking, because each greedy token is followed by a
delimiter it can never itself contain, so maximal munch is used).
`float(...)` on a matched group becomes exact rational parsing; for
pattern 4 the group `[\d.]+` can fail `float` (e.g. `1.2.3`), which in
the source raises out of `parse_movie_page` — modelled by `none`. -/

/-- `pat` is a prefix of `cs`. -/
def starts_with : List Char → List Char → Bool
  | [], _ => true
  | _ :: _, [] => false
  | p :: ps, c :: cs => p == c && starts_with ps cs

/-- `pat` occurs somewhere in `cs`. -/
def contains_sub (pat : List Char) : List Char → Bool
  | [] => starts_with pat []
  | c :: cs => starts_with pat (c :: cs) || contains_sub pat cs

/-- `re.search`: try the position matcher at every start position, in
order. -/
def search_from {α : Type} (tryAt : List Char → Option α) :
    List Char → Option α
  | [] => tryAt []
  | c :: cs =>
    match tryAt (c :: cs) with
    | some v => some v
    | none => search_from tryAt cs

/-- Greedy `\d+\.?\d*`: integer digits, optional dot, fraction digits;
returns the two digit groups and the rest of the input. -/
def scan_number (cs : List Char) :
    Option (List Char × List Char × List Char) :=
  let ip := cs.takeWhile Char.isDigit
  if ip.isEmpty then none
  else
    match cs.drop ip.length with
    | '.' :: r2 =>
      let fp := r2.takeWhile Char.isDigit
      some (ip, fp, r2.drop fp.length)
    | rest1 => some (ip, [], rest1)

/-- The exact rational value of decimal digits `ip . fp`. -/
def decimal_to_rat (ip fp : List Char) : ℚ :=
  (digits_to_nat ip : ℚ) + (digits_to_nat fp : ℚ) / (10 ^ fp.length : ℚ)

/-- Pattern 1 at one position: `data-score="(\d+\.?\d*)"`. -/
def try_data_score (cs : List Char) : Option ℚ :=
  if starts_with "data-score=\"".toList cs then
    match scan_number (cs.drop "data-score=\"".toList.length) with
    | some (ip, fp, '"' :: _) => some (decimal_to_rat ip fp)
    | _ => none
  else none

/-- Pattern 2, inside the tag: scan the no-`>` region for a
`class="..."` attribute whose value contains `rating`; returns the
input after the attribute's closing quote. -/
def try_rating_class_aux : List Char → Option (List Char)
  | [] => none
  | c :: cs =>
    if c == '>' then none
    else if starts_with "class=\"".toList (c :: cs) then
      let after := (c :: cs).drop "class=\"".toList.length
      let value := after.takeWhile fun ch => ch != '"'
      match after.drop value.length with
      | '"' :: r3 =>
        if contains_sub "rating".toList value then some r3
        else try_rating_class_aux cs
      | _ => try_rating_class_aux cs
    else try_rating_class_aux cs

/-- Pattern 2 at one position:
`<[^>]*class="[^"]*rating[^"]*"[^>]*>(\d+\.?\d*)`. -/
def try_rating_class (cs : List Char) : Option ℚ :=
  match cs with
  | '<' :: rest =>
    match try_rating_class_aux rest with
    | some r3 =>
      let tail := r3.takeWhile fun ch => ch != '>'
      match r3.drop tail.length with
      | '>' :: r4 =>
        match scan_number r4 with
        | some (ip, fp, _) => some (decimal_to_rat ip fp)
        | none => none
      | _ => none
    | none => none
  | _ => none

/-- Pattern 3 at one position: `(\d+\.?\d*)\s*/\s*5`. -/
def try_frac_five (cs : List Char) : Option ℚ :=
  match scan_number cs with
  | some (ip, fp, rest) =>
    match rest.dropWhile Char.isWhitespace with
    | '/' :: r2 =>
      match r2.dropWhile Char.isWhitespace with
      | '5' :: _ => some (decimal_to_rat ip fp)
      | _ => none
    | _ => none
  | none => none

/-- Pattern 4 at one position, match only: `>([\d.]+)\s*分<`; returns
the matched `[\d.]+` group. -/
def try_fen (cs : List Char) : Option (List Char) :=
  match cs with
  | '>' :: rest =>
    let g := rest.takeWhile fun ch => ch.isDigit || ch == '.'
    if g.isEmpty then none
    else
      match (rest.drop g.length).dropWhile Char.isWhitespace with
      | '分' :: '<' :: _ => some g
      | _ => none
  | _ => none

/-- Python `float` on a `[\d.]+` group: digits with at most one dot,
`none` when `float` would raise. -/
def float_of_chars (cs : List Char) : Option ℚ :=
  match scan_number cs with
  | some (ip, fp, []) => some (decimal_to_rat ip fp)
  | _ =>
    match cs with
    | '.' :: rest =>
      let fp := rest.takeWhile Char.isDigit
      if !fp.isEmpty && (rest.drop fp.length).isEmpty then
        some ((digits_to_nat fp : ℚ) / (10 ^ fp.length : ℚ))
      else none
    | _ => none

/-- The result dictionary of `parse_movie_page` (its `url` is never
reassigned, `rating_count` stays 0). -/
structure ParseResult where
  code : String
  javdb_score : Option ℚ
  rating_count : Nat
  url : Option String
deriving Repr, DecidableEq

/-- `parse_movie_page(html, code)`: the four patterns in priority
order; `none` models the `float` exception escaping on pattern 4. -/
def parse_movie_page (html : String) (code : String) : Option ParseResult :=
  let base : ParseResult :=
    { code := code, javdb_score := none, rating_count := 0, url := none }
  let cs := html.toList
  match search_from try_data_score cs with
  | some v => some { base with javdb_score := some v }
  | none =>
    match search_from try_rating_class cs with
    | some v => some { base with javdb_score := some v }
    | none =>
      match search_from try_frac_five cs with
      | some v => some { base with javdb_score := some v }
      | none =>
        match search_from try_fen cs with
        | some g =>
          match float_of_chars g with
          | some v => some { base with javdb_score := some v }
          | none => none
        | none => some base

/-- The tail of `get_javdb_score(code)`:
```
result = search_javdb(code)
if result and result.get("javdb_score"):
    return result["javdb_score"]
return None
```
with the network part of `search_javdb` abstracted into the
`searchResult` argument (the parse result of the detail page that the
search found, or `None`).  `result.get("javdb_score")` is tested for
truthiness, so a stored `0.0` and a stored `None` both fall through to
`return None`. -/
def get_javdb_score (searchResult : Option ParseResult) : Option ℚ :=
  match searchResult with
  | some r =>
    match r.javdb_score with
    | some s => if s = 0 then none else some s
    | none => none
  | none => none

/-!
# Theorems
-/

/-! ## Ranking loader lemmas -/

theorem lookupRank_cons (k : String) (v : Nat) (t : List (String × Nat))
    (c : String) :
    lookupRank ((k, v) :: t) c = if k = c then some v else lookupRank t c := by
  by_cases h : k = c <;> simp [lookupRank, List.find?_cons, h]

theorem lookupRank_insertRank (m : List (String × Nat)) (c c' : String) (r : Nat) :
    lookupRank (insertRank m c r) c' =
      if c' = c then some ((lookupRank m c).elim r (min · r))
      else lookupRank m c' := by
  induction m with
  | nil =>
    by_cases h : c' = c <;>
      simp [insertRank, lookupRank_cons, lookupRank, h, eq_comm]
  | cons p t ih =>
    obtain ⟨k, v⟩ := p
    by_cases hk : k = c
    · subst hk
      rw [show insertRank ((k, v) :: t) k r = (k, min v r) :: t by
        simp [insertRank]]
      by_cases h : k = c'
      · subst h
        simp [lookupRank_cons, Option.elim]
      · have h' : ¬c' = k := fun hh => h hh.symm
        simp [lookupRank_cons, h, h']
    · rw [show insertRank ((k, v) :: t) c r = (k, v) :: insertRank t c r by
        simp [insertRank, hk]]
      by_cases h : k = c'
      · subst h
        simp [lookupRank_cons, hk]
      · simp only [lookupRank_cons, if_neg h, if_neg hk]
        exact ih

theorem minList_cons (x : Nat) (xs : List Nat) :
    minList (x :: xs) = some ((minList xs).elim x (min x ·)) := by
  cases h : minList xs <;> simp [minList, h, Option.elim]

theorem minList_eq_none (l : List Nat) : minList l = none ↔ l = [] := by
  cases l with
  | nil => simp [minList]
  | cons x xs => rw [minList_cons]; simp

/-- If `minList` returns a value, that value is in the list and is a
lower bound for it. -/
theorem minList_spec (l : List Nat) (v : Nat) (h : minList l = some v) :
    v ∈ l ∧ ∀ x ∈ l, v ≤ x := by
  induction l generalizing v with
  | nil => simp [minList] at h
  | cons x xs ih =>
    rw [minList_cons] at h
    cases hm : minList xs with
    | none =>
      rw [hm] at h
      simp only [Option.elim, Option.some.injEq] at h
      subst h
      rcases (minList_eq_none xs).mp hm with rfl
      exact ⟨List.mem_cons_self _ _, by intro y hy; simp at hy; omega⟩
    | some m =>
      rw [hm] at h
      simp only [Option.elim, Option.some.injEq] at h
      subst h
      obtain ⟨hmem, hle⟩ := ih m hm
      constructor
      · rcases le_total x m with hxm | hmx
        · simp [min_eq_left hxm]
        · right; rw [min_eq_right hmx]; exact hmem
      · intro y hy
        rcases List.mem_cons.mp hy with rfl | hy'
        · exact min_le_left _ _
        · exact le_trans (min_le_right _ _) (hle y hy')

theorem optMin_none_right (a : Option Nat) : optMin a none = a := by
  cases a <;> simp [optMin]

theorem optMin_assoc (a b c : Option Nat) :
    optMin (optMin a b) c = optMin a (optMin b c) := by
  cases a <;> cases b <;> cases c <;> simp [optMin, min_assoc]

theorem optMin_elim (o : Option Nat) (r : Nat) :
    some (o.elim r (min · r)) = optMin o (some r) := by
  cases o <;> simp [optMin, Option.elim]

theorem minList_cons_optMin (r : Nat) (l : List Nat) :
    minList (r :: l) = optMin (some r) (minList l) := by
  cases h : minList l <;> simp [minList_cons, h, optMin, Option.elim]

theorem extract_code_empty : extract_code "" = none := by decide

theorem load_csv_rows_from_lookup (rows : List CsvRow) :
    ∀ (m : List (String × Nat)) (c : String),
      lookupRank (load_csv_rows_from m rows) c =
        optMin (lookupRank m c) (minList (observedRanks rows c)) := by
  induction rows with
  | nil =>
    intro m c
    simp [load_csv_rows_from, observedRanks, minList, optMin_none_right]
  | cons row rest ih =>
    intro m c
    have hstep : load_csv_rows_from m (row :: rest) =
        load_csv_rows_from
          (if row.name ≠ "" then
            match extract_code row.name with
            | some c0 => insertRank m c0 (parse_rank row.number)
            | none => m
          else m) rest := by
      simp only [load_csv_rows_from, List.foldl_cons]
    rw [hstep]
    by_cases hname : row.name = ""
    · have hc0 : extract_code row.name = none := by
        rw [hname]; exact extract_code_empty
      rw [if_neg (by simp [hname])]
      rw [ih]
      congr 1
      simp [observedRanks, hc0]
    · rw [if_pos (by simp [hname])]
      cases hc0 : extract_code row.name with
      | none =>
        rw [ih]
        congr 1
        simp [observedRanks, hc0]
      | some c0 =>
        by_cases hcc : c = c0
        · subst hcc
          rw [ih, lookupRank_insertRank]
          rw [if_pos rfl, optMin_elim]
          have hobs : observedRanks (row :: rest) c =
              parse_rank row.number :: observedRanks rest c := by
            simp [observedRanks, hc0]
          rw [hobs, minList_cons_optMin, optMin_assoc]
        · rw [ih, lookupRank_insertRank, if_neg hcc]
          congr 1
          have hne : ¬extract_code row.name = some c := by
            rw [hc0]
            intro h
            exact hcc (Option.some.inj h).symm
          simp [observedRanks, hne]

theorem load_csv_rows_lookup (rows : List CsvRow) (c : String) :
    lookupRank (load_csv_rows rows) c = minList (observedRanks rows c) := by
  rw [load_csv_rows, load_csv_rows_from_lookup]
  simp [lookupRank, optMin]

/-! ## Feed entry processing lemmas -/

theorem process_step_none (movies : List Movie) (actorId : Nat)
    (actorName now : String) (acc : List RssItem × Nat) (e : RssEntry)
    (h : extract_code e.title = none) :
    process_step movies actorId actorName now acc e = acc := by
  simp [process_step, h]

theorem process_step_some (movies : List Movie) (actorId : Nat)
    (actorName now : String) (acc : List RssItem × Nat) (e : RssEntry)
    (c : String) (h : extract_code e.title = some c) :
    process_step movies actorId actorName now acc e =
      (insert_rss_item acc.1
        { actor_id := actorId, code := c, title := e.title,
          javbus_url := e.link, pub_date := e.pubDate,
          is_watched := (existing_codes movies actorName).contains c,
          score := 50, detected_at := now },
       acc.2 + 1) := by
  simp [process_step, h]

theorem process_count_from (movies : List Movie) (actorId : Nat)
    (actorName now : String) :
    ∀ (entries : List RssEntry) (store : List RssItem) (n : Nat),
      (entries.foldl (process_step movies actorId actorName now) (store, n)).2 =
        n + entries.countP fun e => (extract_code e.title).isSome := by
  intro entries
  induction entries with
  | nil => intro store n; simp
  | cons e rest ih =>
    intro store n
    simp only [List.foldl_cons, List.countP_cons]
    cases hc : extract_code e.title with
    | none =>
      rw [process_step_none _ _ _ _ _ _ hc, ih]
      simp [hc]
    | some c =>
      rw [process_step_some _ _ _ _ _ _ _ hc, ih]
      simp [hc]
      omega

/-! ## Claim theorems (first batch) -/

/-- C8: for every ranking source, the loaded mapping stores, for each
code, exactly the minimum of the ranks observed in rows yielding that
code (membership and lower bound included); in particular two rows both
yielding code ABC-100 with ranks 40 and 12 load as rank 12. -/
theorem load_csv_rows_stores_min_rank :
    (∀ (rows : List CsvRow) (c : String),
        lookupRank (load_csv_rows rows) c = minList (observedRanks rows c)) ∧
    (∀ (rows : List CsvRow) (c : String) (v : Nat),
        lookupRank (load_csv_rows rows) c = some v →
          v ∈ observedRanks rows c ∧ ∀ x ∈ observedRanks rows c, v ≤ x) ∧
    lookupRank (load_csv_rows
        [⟨"ABC-100 first", "40"⟩, ⟨"ABC-100 second", "12"⟩]) "ABC-100" =
      some 12 := by
  refine ⟨load_csv_rows_lookup, ?_, by rfl⟩
  intro rows c v h
  rw [load_csv_rows_lookup] at h
  exact minList_spec _ v h

theorem load_csv_rows_stores_min_rank_witness :
    12 ∈ observedRanks
        [⟨"ABC-100 first", "40"⟩, ⟨"ABC-100 second", "12"⟩] "ABC-100" ∧
    ∀ x ∈ observedRanks
        [⟨"ABC-100 first", "40"⟩, ⟨"ABC-100 second", "12"⟩] "ABC-100",
      12 ≤ x :=
  load_csv_rows_stores_min_rank.2.1
    [⟨"ABC-100 first", "40"⟩, ⟨"ABC-100 second", "12"⟩] "ABC-100" 12 (by rfl)

/-- C9: the items-added count reported by a successful poll counts every
entry whose title yields a code — also entries whose (performer, code)
pair is already stored and whose insert is ignored — so it can strictly
exceed the number of rows the poll actually added: concretely, one
entry whose pair is already stored reports count 1 while the store is
unchanged. -/
theorem process_rss_entries_counts_duplicates :
    (∀ (movies : List Movie) (actorId : Nat) (actorName now : String)
        (entries : List RssEntry) (store : List RssItem),
        (process_rss_entries movies actorId actorName now entries store).2 =
          entries.countP fun e => (extract_code e.title).isSome) ∧
    (process_rss_entries [] 1 "A" "t"
        [⟨"ABC-1 new scene", "l1", "p1"⟩]
        [⟨1, "ABC-1", "old title", "l0", "p0", false, 50, "t0"⟩]) =
      ([⟨1, "ABC-1", "old title", "l0", "p0", false, 50, "t0"⟩], 1) := by
  constructor
  · intro movies actorId actorName now entries store
    rw [process_rss_entries, process_count_from]
    simp
  · rfl

/-- C10: a detail page whose score attribute is exactly 0 parses to a
stored rating 0, yet `get_javdb_score` reports not-found for it, since
the extracted score is tested for truthiness; in general the function
returns a rating only when that rating is non-zero. -/
theorem get_javdb_score_drops_zero :
    parse_movie_page "<div data-score=\"0\"></div>" "ABC-123" =
      some { code := "ABC-123", javdb_score := some 0, rating_count := 0,
             url := none } ∧
    get_javdb_score
        (parse_movie_page "<div data-score=\"0\"></div>" "ABC-123") = none ∧
    ∀ (res : Option ParseResult) (r : ℚ), get_javdb_score res = some r → r ≠ 0 := by
  have h : parse_movie_page "<div data-score=\"0\"></div>" "ABC-123" =
      some { code := "ABC-123", javdb_score := some ((0 : ℚ) + (0 : ℚ) / (1 : ℚ)),
             rating_count := 0, url := none } := by rfl
  have h0 : ((0 : ℚ) + (0 : ℚ) / (1 : ℚ)) = 0 := by norm_num
  refine ⟨by rw [h]; norm_num, by rw [h]; simp [get_javdb_score, h0], ?_⟩
  intro res r hres
  cases res with
  | none => simp [get_javdb_score] at hres
  | some p =>
    cases hp : p.javdb_score with
    | none => simp [get_javdb_score, hp] at hres
    | some s =>
      by_cases hs : s = 0
      · simp [get_javdb_score, hp, hs] at hres
      · simp [get_javdb_score, hp, hs] at hres
        rw [← hres]
        exact hs

theorem get_javdb_score_drops_zero_witness : (5 : ℚ) ≠ 0 :=
  get_javdb_score_drops_zero.2.2
    (some { code := "X", javdb_score := some 5, rating_count := 0, url := none }) 5
    (by norm_num [get_javdb_score])

/-- C7 counterexample: the running flag is only set by the spawned
background run, not by the request handler, so two start requests
arriving before the first run begins are both accepted and leave two
batch runs of the same kind active at once — refuting that a second
start during an active run is always rejected and never spawns a second
run. -/
theorem rss_refresh_double_start :
    (job_run initJobSys [.request [1], .request [1]]).2 =
      [.started, .started] ∧
    active_runs (job_run initJobSys [.request [1], .request [1]]).1 = 2 := by
  constructor <;> rfl

/-- C7 (amended): a start request issued while the job state's running
flag is set is rejected with the already-running reply and leaves the
state unchanged — no second run is spawned and the result log is
untouched.  (Two runs can still be active at once when both start
requests precede the first run's initialisation, as the flag is set by
the run itself.) -/
theorem rss_refresh_rejects_when_running (s : JobSys) (w : List Nat)
    (h : s.is_running = true) :
    rss_refresh_request s w = (s, .alreadyRunning) := by
  simp [rss_refresh_request, h]

theorem rss_refresh_rejects_when_running_witness :
    rss_refresh_request ⟨true, false, [], [], 0⟩ [3] =
      (⟨true, false, [], [], 0⟩, .alreadyRunning) :=
  rss_refresh_rejects_when_running ⟨true, false, [], [], 0⟩ [3] rfl

/-- C2: a retryable status received at domain index 1 with retry budget
remaining is retried at domain index 0 — not at the same domain index —
because the recursive call in the retryable-status branch omits the
`domain_index` argument (defaulting it to 0); index 0 and index 1 name
different configured domains. -/
theorem fetch_step_429_resets_domain :
    fetch_step appConfig [] 7 "A" "t" (.http 429 false []) 0 1 [] [] =
      .cont (some 5) 1 0 ∧
    current_domain appConfig 0 ≠ current_domain appConfig 1 := by
  exact ⟨by rfl, by decide⟩

/-! ## Score engine lemmas -/

theorem split_actors_empty : split_actors "" = [] := by rfl

theorem list_adj_eq (a b : Bool) :
    (if a && b then (30 : Int) else if a || b then 20 else 0) =
      claim_list_adj a b := by
  cases a <;> cases b <;> simp [claim_list_adj]

theorem annual_adj_eq (p : String → Bool) :
    (if ["JavDB 2025 TOP250", "JavDB 2024 TOP250", "JavDB 2023 TOP250"].any p
      then (10 : Int) else 0) = claim_annual_adj p := by
  unfold claim_annual_adj
  cases hf : ["JavDB 2025 TOP250", "JavDB 2024 TOP250",
      "JavDB 2023 TOP250"].find? p with
  | none =>
    rw [List.find?_eq_none] at hf
    have : ["JavDB 2025 TOP250", "JavDB 2024 TOP250",
        "JavDB 2023 TOP250"].any p = false := by
      simp only [List.any_eq_false]
      intro x hx
      simp [hf x hx]
    simp [this]
  | some x =>
    have hmem := List.find?_some hf
    have hx := List.mem_of_find?_eq_some hf
    have : ["JavDB 2025 TOP250", "JavDB 2024 TOP250",
        "JavDB 2023 TOP250"].any p = true := by
      simp only [List.any_eq_true]
      exact ⟨x, hx, hmem⟩
    simp [this]

/-! ## Catalog upsert lemmas -/

theorem movie_find_upsert (store : List Movie) (code : String) (row : Movie)
    (hc : row.code = code) :
    movie_find ((store.filter fun m => m.code ≠ code) ++ [row]) code =
      some row := by
  have hnone : (store.filter fun m => m.code ≠ code).find?
      (fun m => m.code == code) = none := by
    rw [List.find?_eq_none]
    intro x hx
    have := List.of_mem_filter hx
    simp at this
    simp [this]
  rw [movie_find, List.find?_append, hnone]
  simp [hc]

theorem countP_upsert (store : List Movie) (code : String) (row : Movie)
    (hc : row.code = code) :
    ((store.filter fun m => m.code ≠ code) ++ [row]).countP
      (fun m => m.code == code) = 1 := by
  rw [List.countP_append]
  have hz : (store.filter fun m => m.code ≠ code).countP
      (fun m => m.code == code) = 0 := by
    rw [List.countP_eq_zero]
    intro x hx
    have := List.of_mem_filter hx
    simp at this
    simp [this]
  rw [hz]
  simp [List.countP_cons, hc]

/-! ## Feed store invariant lemmas -/

theorem insert_rss_item_mem (store : List RssItem) (it : RssItem) :
    ∀ x ∈ store, x ∈ insert_rss_item store it := by
  intro x hx
  rw [insert_rss_item]
  split
  · exact hx
  · exact List.mem_append_left _ hx

theorem insert_rss_item_unique (store : List RssItem) (it : RssItem)
    (h : rss_pair_unique store) :
    rss_pair_unique (insert_rss_item store it) := by
  rw [insert_rss_item]
  split
  · exact h
  · rename_i hany
    rw [rss_pair_unique, List.pairwise_append]
    refine ⟨h, List.pairwise_singleton _ _, ?_⟩
    intro x hx y hy
    rcases List.mem_singleton.mp hy with rfl
    intro hpair
    apply hany
    rw [List.any_eq_true]
    refine ⟨x, hx, ?_⟩
    simp [hpair.1, hpair.2]

theorem process_fold_invariant (movies : List Movie) (actorId : Nat)
    (actorName now : String) :
    ∀ (entries : List RssEntry) (store : List RssItem) (n : Nat),
      rss_pair_unique store →
      rss_pair_unique
        ((entries.foldl (process_step movies actorId actorName now)
          (store, n)).1) ∧
      ∀ x ∈ store,
        x ∈ (entries.foldl (process_step movies actorId actorName now)
          (store, n)).1 := by
  intro entries
  induction entries with
  | nil => intro store n h; exact ⟨h, fun x hx => hx⟩
  | cons e rest ih =>
    intro store n h
    simp only [List.foldl_cons]
    cases hc : extract_code e.title with
    | none =>
      rw [process_step_none _ _ _ _ _ _ hc]
      exact ih store n h
    | some c =>
      rw [process_step_some _ _ _ _ _ _ _ hc]
      have hins := insert_rss_item_unique store
        { actor_id := actorId, code := c, title := e.title,
          javbus_url := e.link, pub_date := e.pubDate,
          is_watched := (existing_codes movies actorName).contains c,
          score := 50, detected_at := now } h
      obtain ⟨h1, h2⟩ := ih _ (n + 1) hins
      refine ⟨h1, fun x hx => h2 x ?_⟩
      exact insert_rss_item_mem _ _ x hx

theorem rss_pair_unique_eq (store : List RssItem) (h : rss_pair_unique store) :
    ∀ x ∈ store, ∀ y ∈ store,
      x.actor_id = y.actor_id → x.code = y.code → x = y := by
  induction store with
  | nil => simp
  | cons a t ih =>
    rw [rss_pair_unique, List.pairwise_cons] at h
    obtain ⟨ha, ht⟩ := h
    intro x hx y hy hid hcode
    rcases List.mem_cons.mp hx with rfl | hx'
    · rcases List.mem_cons.mp hy with rfl | hy'
      · rfl
      · exact absurd ⟨hid, hcode⟩ (ha y hy')
    · rcases List.mem_cons.mp hy with rfl | hy'
      · exact absurd ⟨hid.symm, hcode.symm⟩ (ha x hx')
      · exact ih ht x hx' y hy' hid hcode

/-! ## Fetch retry lemmas -/

theorem fetch_step_retryable (cfg : FetchConfig) (movies : List Movie)
    (actorId : Nat) (actorName now : String) (resp : NetResp)
    (r d : Nat) (rss : List RssItem) (actors : List ActorRow)
    (h : is_retryable_resp resp) :
    fetch_step cfg movies actorId actorName now resp r d rss actors =
      if r < cfg.maxRetries then
        .cont (some (cfg.baseDelay * 2 ^ r)) (r + 1) 0
      else .done (.retryExhausted (resp_status resp) r) rss actors := by
  cases resp with
  | http s tr es =>
    simp only [is_retryable_resp] at h
    simp [fetch_step, resp_status, h]
  | reqExc t => exact absurd h (by simp [is_retryable_resp])
  | exc => exact absurd h (by simp [is_retryable_resp])

/-! ## Claim theorems (second batch) -/

/-- C1: for every snapshot, code, performer string and rating, the
composite score equals 50 plus the independently evaluated adjustments
exactly as the specification lists them (rating tiers when a rating is
present, both-vs-exactly-one ranked-list bonus, a flat +10 for the
first annual list containing the code in the fixed order 2025, 2024,
2023, +5 for at least two named performers, +15 when a named performer
is feed-linked); in particular a code in both ranked lists, one annual
list, rating 4.6, two performers, none feed-linked scores 115. -/
theorem calculate_movie_score_spec :
    (∀ (csv : String → List (String × Nat)) (movies : List Movie)
        (tab : List ActorRow) (code actors_str : String) (r : Option ℚ),
        calculate_movie_score csv movies tab code actors_str r =
          claimed_score csv tab code actors_str
            (resolve_rating movies code r)) ∧
    calculate_movie_score exampleCsv [] [] "ABC-123" "A,B" (some 4.6) = 115 := by
  constructor
  · intro csv movies tab code actors_str r
    simp only [calculate_movie_score, claimed_score, claim_rating_adj,
      claim_multi_adj, claim_feed_adj]
    rw [list_adj_eq, annual_adj_eq]
    by_cases h : actors_str = ""
    · subst h
      simp [split_actors_empty]
    · simp [h]
  · norm_num [calculate_movie_score, resolve_rating, exampleCsv, lookupRank,
      split_actors, actor_has_javbus_id, movie_find]
    decide

/-- C3: a poll whose requests keep drawing retryable statuses sleeps
`RSS_RETRY_BASE_DELAY * 2 ^ k` before the retry at attempt
`k = 0, 1, 2`, issues exactly `RSS_MAX_RETRIES = 3` retries after the
initial request, and then terminates with the retry-exhausted failure —
for any remaining fuel, so it never retries indefinitely. -/
theorem fetch_rss_backoff_schedule (env : Nat → NetResp)
    (henv : ∀ i, is_retryable_resp (env i)) (extra : Nat)
    (movies : List Movie) (actorId : Nat) (actorName now : String)
    (rss : List RssItem) (actors : List ActorRow) :
    fetch_loop appConfig movies actorId actorName now env (extra + 4) 0 0 0
        rss actors =
      ([.req 0 0, .sleep 5, .req 0 1, .sleep 10, .req 0 2, .sleep 20,
        .req 0 3],
       some (.retryExhausted (resp_status (env 3)) 3, rss, actors)) ∧
    [5, 10, 20] =
      (List.range RSS_MAX_RETRIES).map fun k =>
        RSS_RETRY_BASE_DELAY * 2 ^ k := by
  constructor
  · have h0 : fetch_step appConfig movies actorId actorName now (env 0) 0 0
        rss actors = .cont (some 5) 1 0 := by
      rw [fetch_step_retryable _ _ _ _ _ _ _ _ _ _ (henv 0)]
      norm_num [appConfig, RSS_MAX_RETRIES, RSS_RETRY_BASE_DELAY]
    have h1 : fetch_step appConfig movies actorId actorName now (env 1) 1 0
        rss actors = .cont (some 10) 2 0 := by
      rw [fetch_step_retryable _ _ _ _ _ _ _ _ _ _ (henv 1)]
      norm_num [appConfig, RSS_MAX_RETRIES, RSS_RETRY_BASE_DELAY]
    have h2 : fetch_step appConfig movies actorId actorName now (env 2) 2 0
        rss actors = .cont (some 20) 3 0 := by
      rw [fetch_step_retryable _ _ _ _ _ _ _ _ _ _ (henv 2)]
      norm_num [appConfig, RSS_MAX_RETRIES, RSS_RETRY_BASE_DELAY]
    have h3 : fetch_step appConfig movies actorId actorName now (env 3) 3 0
        rss actors =
        .done (.retryExhausted (resp_status (env 3)) 3) rss actors := by
      rw [fetch_step_retryable _ _ _ _ _ _ _ _ _ _ (henv 3)]
      norm_num [appConfig, RSS_MAX_RETRIES]
    simp only [fetch_loop, h0, h1, h2, h3]
    simp
  · decide

theorem fetch_rss_backoff_schedule_witness :
    fetch_loop appConfig [] 1 "A" "t" (fun _ => NetResp.http 429 false [])
        4 0 0 0 [] [] =
      ([.req 0 0, .sleep 5, .req 0 1, .sleep 10, .req 0 2, .sleep 20,
        .req 0 3],
       some (.retryExhausted 429 3, [], [])) ∧
    [5, 10, 20] =
      (List.range RSS_MAX_RETRIES).map fun k =>
        RSS_RETRY_BASE_DELAY * 2 ^ k :=
  fetch_rss_backoff_schedule (fun _ => NetResp.http 429 false [])
    (fun _ => rfl) 0 [] 1 "A" "t" [] []

/-- C4: when a request fails with a timeout-class network error and a
next configured domain exists, the immediately following request
targets that next domain with the attempt counter reset to 0 and with
no backoff sleep and no retry-budget consumption; when no next domain
exists, the generic backoff retry rule applies instead. -/
theorem fetch_rss_timeout_rotation (cfg : FetchConfig) (movies : List Movie)
    (actorId : Nat) (actorName now : String) (env : Nat → NetResp)
    (i r d fuel : Nat) (rss : List RssItem) (actors : List ActorRow)
    (hresp : env i = .reqExc true) :
    (d + 1 < cfg.domains.length →
      fetch_loop cfg movies actorId actorName now env (fuel + 2) i r d
          rss actors =
        (FetchEvent.req d r ::
          (fetch_loop cfg movies actorId actorName now env (fuel + 1)
            (i + 1) 0 (d + 1) rss actors).1,
         (fetch_loop cfg movies actorId actorName now env (fuel + 1)
           (i + 1) 0 (d + 1) rss actors).2)) ∧
    (¬d + 1 < cfg.domains.length →
      fetch_step cfg movies actorId actorName now (env i) r d rss actors =
        if r < cfg.maxRetries then
          .cont (some (cfg.baseDelay * 2 ^ r)) (r + 1) d
        else .done .networkFailed rss actors) := by
  constructor
  · intro hd
    have hstep : fetch_step cfg movies actorId actorName now (env i) r d
        rss actors = .cont none 0 (d + 1) := by
      rw [hresp]
      simp [fetch_step, request_exc_step, hd]
    simp only [fetch_loop, hstep]
    simp
  · intro hd
    rw [hresp]
    simp [fetch_step, request_exc_step, hd]

theorem fetch_rss_timeout_rotation_witness :
    fetch_loop appConfig [] 1 "A" "t" (fun _ => NetResp.reqExc true)
        2 0 0 0 [] [] =
      (FetchEvent.req 0 0 ::
        (fetch_loop appConfig [] 1 "A" "t" (fun _ => NetResp.reqExc true)
          1 1 0 1 [] []).1,
       (fetch_loop appConfig [] 1 "A" "t" (fun _ => NetResp.reqExc true)
         1 1 0 1 [] []).2) :=
  (fetch_rss_timeout_rotation appConfig [] 1 "A" "t"
    (fun _ => NetResp.reqExc true) 0 0 0 0 [] [] rfl).1 (by decide)

/-- C5: re-syncing the same catalog item is idempotent on identity and
sticky fields: after the second sync exactly one row carries the item's
code; that row keeps the score and rating that were stored before the
second sync while title, year, performers, added-date and external id
are overwritten with the incoming values; and the score only defaults
to 50 (with rating NULL) when no prior row for the code exists. -/
theorem sync_jellyfin_idempotent (store : List Movie) (it : JellyfinItem)
    (code : String) (h : extract_code it.itemName = some code) :
    ((sync_jellyfin_item (sync_jellyfin_item store it) it).countP
      fun m => m.code == code) = 1 ∧
    (∀ m1, movie_find (sync_jellyfin_item store it) code = some m1 →
      movie_find (sync_jellyfin_item (sync_jellyfin_item store it) it) code =
        some { code := code, title := it.itemName, year := it.productionYear,
               actors := item_actors it, date_added := item_date_added it,
               jellyfin_id := it.itemId, score := m1.score,
               javdb_score := m1.javdb_score }) ∧
    (movie_find store code = none →
      movie_find (sync_jellyfin_item store it) code =
        some { code := code, title := it.itemName, year := it.productionYear,
               actors := item_actors it, date_added := item_date_added it,
               jellyfin_id := it.itemId, score := 50,
               javdb_score := none }) := by
  refine ⟨?_, ?_, ?_⟩
  · rw [show sync_jellyfin_item (sync_jellyfin_item store it) it =
        ((sync_jellyfin_item store it).filter fun m => m.code ≠ code) ++
          [sync_row it code (movie_find (sync_jellyfin_item store it) code)] by
      simp [sync_jellyfin_item, h]]
    exact countP_upsert _ _ _ rfl
  · intro m1 hm1
    rw [show sync_jellyfin_item (sync_jellyfin_item store it) it =
        ((sync_jellyfin_item store it).filter fun m => m.code ≠ code) ++
          [sync_row it code (movie_find (sync_jellyfin_item store it) code)] by
      simp [sync_jellyfin_item, h]]
    rw [movie_find_upsert (sync_jellyfin_item store it) code
      (sync_row it code (movie_find (sync_jellyfin_item store it) code))
      (by simp [sync_row]), hm1]
    simp [sync_row]
  · intro hnone
    rw [show sync_jellyfin_item store it =
        (store.filter fun m => m.code ≠ code) ++
          [sync_row it code (movie_find store code)] by
      simp [sync_jellyfin_item, h]]
    rw [movie_find_upsert store code
      (sync_row it code (movie_find store code)) (by simp [sync_row]), hnone]
    simp [sync_row]

theorem sync_jellyfin_idempotent_witness :
    (((sync_jellyfin_item (sync_jellyfin_item []
        ⟨"ABC-123 title", "2020", "2021-01-02T03:04:05", [("A", "Actor")],
         "jid"⟩)
        ⟨"ABC-123 title", "2020", "2021-01-02T03:04:05", [("A", "Actor")],
         "jid"⟩).countP fun m => m.code == "ABC-123") = 1) ∧
    movie_find (sync_jellyfin_item []
        ⟨"ABC-123 title", "2020", "2021-01-02T03:04:05", [("A", "Actor")],
         "jid"⟩) "ABC-123" =
      some { code := "ABC-123", title := "ABC-123 title", year := "2020",
             actors := "A", date_added := "2021-01-02",
             jellyfin_id := "jid", score := 50, javdb_score := none } := by
  have hthm := sync_jellyfin_idempotent []
    ⟨"ABC-123 title", "2020", "2021-01-02T03:04:05", [("A", "Actor")], "jid"⟩
    "ABC-123" (by rfl)
  exact ⟨hthm.1, by
    have := hthm.2.2 (by rfl)
    rw [this]
    rfl⟩

/-- C6: every poll preserves the feed-store invariant that no two rows
share a (performer, code) pair; a duplicate insert is ignored, never
overwriting, so every row present before the poll is still present
afterwards with its original field values, and it is the only row with
its pair. -/
theorem rss_items_pair_unique (movies : List Movie) (actorId : Nat)
    (actorName now : String) (entries : List RssEntry)
    (store : List RssItem) (h : rss_pair_unique store) :
    rss_pair_unique
      (process_rss_entries movies actorId actorName now entries store).1 ∧
    ∀ x ∈ store,
      x ∈ (process_rss_entries movies actorId actorName now entries store).1 ∧
      ∀ y ∈ (process_rss_entries movies actorId actorName now entries
          store).1,
        y.actor_id = x.actor_id → y.code = x.code → y = x := by
  obtain ⟨hu, hm⟩ := process_fold_invariant movies actorId actorName now
    entries store 0 h
  refine ⟨hu, fun x hx => ⟨hm x hx, fun y hy hid hcode => ?_⟩⟩
  exact rss_pair_unique_eq _ hu y hy x (hm x hx) hid hcode

theorem rss_items_pair_unique_witness :
    rss_pair_unique
      (process_rss_entries [] 1 "A" "t" [⟨"ABC-1 scene", "l", "p"⟩] []).1 ∧
    ∀ x ∈ ([] : List RssItem),
      x ∈ (process_rss_entries [] 1 "A" "t" [⟨"ABC-1 scene", "l", "p"⟩] []).1 ∧
      ∀ y ∈ (process_rss_entries [] 1 "A" "t"
          [⟨"ABC-1 scene", "l", "p"⟩] []).1,
        y.actor_id = x.actor_id → y.code = x.code → y = x :=
  rss_items_pair_unique [] 1 "A" "t" [⟨"ABC-1 scene", "l", "p"⟩] []
    (by simp [rss_pair_unique])
